import Mathlib

/-!
Shallow embedding of `macrokid/examples/graphics_demo/include/demo.hpp`,
a C++ header consisting of two struct declarations carrying
`__attribute__((annotate("...")))` metadata tags, and proofs of the
stated properties of that header.

The header is embedded twice, and both embeddings are direct
transcriptions of the source file:
* `demoHppLines` — the raw text of the file, line by line;
* `demoHpp` — the parsed declarations (structs, their members, their
  metadata tag strings).
The declaration types (`CDecl`, `Member`, `CType`) deliberately contain
constructors for things the file could have contained but does not
(functions, member functions, constructors, operators, variable
definitions, base classes, struct-typed fields), so that their absence
is a meaningful statement rather than an artifact of the model.
-/

namespace DemoHpp

/-- A C++ scalar or named type as it appears in a field declaration. -/
inductive CType where
  | float
  | int
  | named (n : String)
deriving DecidableEq, Repr

/-- A data field of a struct: its metadata tag strings (the arguments of
`__attribute__((annotate("...")))`), base type, name, and array arity
(`some n` for `T name[n]`, `none` for a scalar field). -/
structure Field where
  tags : List String
  baseType : CType
  name : String
  arity : Option Nat
deriving DecidableEq, Repr

/-- A member of a struct body. The header only contains data fields, but
the type can represent the executable members it could have had. -/
inductive Member where
  | dataField (f : Field)
  | memberFn (name : String)
  | ctor (name : String)
  | op (name : String)
deriving DecidableEq, Repr

/-- A struct declaration: its metadata tag strings, name, base classes,
and members. -/
structure StructDecl where
  tags : List String
  name : String
  bases : List String
  members : List Member
deriving DecidableEq, Repr

/-- A top-level item of the header file. -/
inductive CDecl where
  | pragmaOnce
  | structDef (s : StructDecl)
  | fnDef (name : String)
  | varDef (name : String) (type : CType)
deriving DecidableEq, Repr

/-- `struct __attribute__((annotate("mk::struct(tag=vertex)"))) DemoVertex`
(demo.hpp lines 3–7), transcribed field by field. -/
def DemoVertex : StructDecl :=
  { tags := ["mk::struct(tag=vertex)"]
    name := "DemoVertex"
    bases := []
    members :=
      [ .dataField { tags := [], baseType := .float, name := "pos", arity := some 3 }
      , .dataField { tags := ["mk::vertex(location=1,format=vec3)"]
                     baseType := .float, name := "normal", arity := some 3 }
      , .dataField { tags := ["mk::vertex(location=2,format=vec2)"]
                     baseType := .float, name := "uv", arity := some 2 } ] }

/-- `struct Material` (demo.hpp lines 9–11), transcribed. -/
def Material : StructDecl :=
  { tags := []
    name := "Material"
    bases := []
    members :=
      [ .dataField { tags := ["mk::resource(kind=uniform,set=0,binding=0)"]
                     baseType := .int, name := "id", arity := none } ] }

/-- The whole header file as a list of top-level items, in file order. -/
def demoHpp : List CDecl :=
  [ .pragmaOnce, .structDef DemoVertex, .structDef Material ]

/-- The raw text of demo.hpp, one entry per line of the file (the final
line carries no trailing newline; braces are written as escapes). -/
def demoHppLines : List String :=
  [ "#pragma once"
  , ""
  , "struct __attribute__((annotate(\"mk::struct(tag=vertex)\"))) DemoVertex \x7b"
  , "    float pos[3];"
  , "    float __attribute__((annotate(\"mk::vertex(location=1,format=vec3)\"))) normal[3];"
  , "    float __attribute__((annotate(\"mk::vertex(location=2,format=vec2)\"))) uv[2];"
  , "\x7d;"
  , ""
  , "struct Material \x7b"
  , "    int __attribute__((annotate(\"mk::resource(kind=uniform,set=0,binding=0)\"))) id;"
  , "\x7d;" ]

/-! ### Derived views of the header -/

/-- The struct declarations of a header, in order. -/
def structsOf (ds : List CDecl) : List StructDecl :=
  ds.filterMap fun d =>
    match d with
    | .structDef s => some s
    | _ => none

/-- The data fields of a struct, in declaration order. -/
def fieldsOf (s : StructDecl) : List Field :=
  s.members.filterMap fun m =>
    match m with
    | .dataField f => some f
    | _ => none

/-- All metadata tag strings attached to a struct or to any of its
members, in declaration order. -/
def structTags (s : StructDecl) : List String :=
  s.tags ++ s.members.flatMap fun m =>
    match m with
    | .dataField f => f.tags
    | _ => []

/-- All metadata tag strings of a header, in file order. -/
def allTags (ds : List CDecl) : List String :=
  (structsOf ds).flatMap structTags

/-- The tag list of the named field of a struct, if the field exists. -/
def fieldTagList (s : StructDecl) (n : String) : Option (List String) :=
  ((fieldsOf s).find? fun f => f.name == n).map fun f => f.tags

/-- The number of scalar components a field contributes to its struct:
its array arity, or 1 for a scalar field. -/
def componentCount (f : Field) : Nat :=
  match f.arity with
  | some n => n
  | none => 1

/-! ### Parsing the `mk::name(key=value,...)` tag strings -/

/-- Characters before the first occurrence of `c`. -/
def takeUntil (c : Char) : List Char → List Char
  | [] => []
  | x :: xs => if x = c then [] else x :: takeUntil c xs

/-- Characters after the first occurrence of `c` (everything, if `c`
does not occur). -/
def dropThrough (c : Char) : List Char → List Char
  | [] => []
  | x :: xs => if x = c then xs else dropThrough c xs

/-- Split a character list on a separator character. -/
def splitOnChar (c : Char) : List Char → List (List Char)
  | [] => [[]]
  | x :: xs =>
    if x = c then [] :: splitOnChar c xs
    else
      match splitOnChar c xs with
      | [] => [[x]]
      | y :: ys => (x :: y) :: ys

/-- Decimal value of a digit list, if every character is a digit. -/
def natOfChars : List Char → Option Nat
  | [] => none
  | cs => cs.foldl (fun acc c =>
      acc.bind fun n => if c.isDigit then some (n * 10 + (c.toNat - 48)) else none)
      (some 0)

/-- The name part of a tag: the characters before the opening
parenthesis, e.g. `mk::vertex` in `mk::vertex(location=1,format=vec3)`. -/
def tagName (t : String) : String :=
  String.mk (takeUntil '(' t.toList)

/-- The `key=value` pairs of a tag's parenthesised argument list. -/
def tagParams (t : String) : List (String × String) :=
  (splitOnChar ',' (takeUntil ')' (dropThrough '(' t.toList))).map fun p =>
    (String.mk (takeUntil '=' p), String.mk (dropThrough '=' p))

/-- The value of the named parameter of a tag, if present. -/
def tagParam (t : String) (key : String) : Option String :=
  ((tagParams t).find? fun p => p.1 == key).map fun p => p.2

/-- The value of the named parameter of a tag read as a decimal number. -/
def tagParamNat (t : String) (key : String) : Option Nat :=
  (tagParam t key).bind fun v => natOfChars v.toList

/-- The component count stated by a `format=vecN` value. -/
def componentsOfFormat (v : String) : Option Nat :=
  match v.toList with
  | 'v' :: 'e' :: 'c' :: rest => natOfChars rest
  | _ => none

/-- All `location` values of `mk::vertex` tags in a header, in file
order. -/
def allVertexLocations (ds : List CDecl) : List Nat :=
  (allTags ds).filterMap fun t =>
    if tagName t == "mk::vertex" then tagParamNat t "location" else none

/-- All `(set, binding)` pairs of `mk::resource` tags in a header, in
file order. -/
def allResourceBindings (ds : List CDecl) : List (Nat × Nat) :=
  (allTags ds).filterMap fun t =>
    if tagName t == "mk::resource" then
      (tagParamNat t "set").bind fun s =>
        (tagParamNat t "binding").map fun b => (s, b)
    else none

/-- Number of occurrences of a character pattern in a character list
(at distinct start positions). -/
def countOccurrences (pat : List Char) : List Char → Nat
  | [] => 0
  | x :: xs =>
    (if pat.isPrefixOf (x :: xs) then 1 else 0) + countOccurrences pat xs

/-- Total occurrences of a pattern string across the lines of a file. -/
def countInLines (pat : String) (lines : List String) : Nat :=
  (lines.map fun l => countOccurrences pat.toList l.toList).sum

/-- The `mk::vertex` tag of a field, if it carries one. -/
def vertexTagOf (f : Field) : Option String :=
  f.tags.find? fun t => tagName t == "mk::vertex"

/-- Whether a member is a plain data field. -/
def isDataField (m : Member) : Bool :=
  match m with
  | .dataField _ => true
  | _ => false

/-- The struct name a field's base type refers to, if any. -/
def namedRef (t : CType) : Option String :=
  match t with
  | .named n => some n
  | _ => none

end DemoHpp

namespace DemoHpp

/-- Claim C1: the complete list of metadata tag strings occurring in the
header is exactly the four literal tags, bit-exact and in file order:
`mk::struct(tag=vertex)` on the `DemoVertex` aggregate,
`mk::vertex(location=1,format=vec3)` on the `normal` field,
`mk::vertex(location=2,format=vec2)` on the `uv` field, and
`mk::resource(kind=uniform,set=0,binding=0)` on `Material`'s `id` field;
moreover the raw text of the file contains exactly these four
annotate-attribute sites and no other. -/
theorem c1_header_tags_exact :
    allTags demoHpp =
      [ "mk::struct(tag=vertex)"
      , "mk::vertex(location=1,format=vec3)"
      , "mk::vertex(location=2,format=vec2)"
      , "mk::resource(kind=uniform,set=0,binding=0)" ]
    ∧ DemoVertex.tags = ["mk::struct(tag=vertex)"]
    ∧ fieldTagList DemoVertex "normal" = some ["mk::vertex(location=1,format=vec3)"]
    ∧ fieldTagList DemoVertex "uv" = some ["mk::vertex(location=2,format=vec2)"]
    ∧ fieldTagList Material "id" = some ["mk::resource(kind=uniform,set=0,binding=0)"]
    ∧ countInLines "annotate" demoHppLines = 4 := by
  decide

/-- Claim C2: `DemoVertex` consists of exactly three fields in the fixed
order position (3 components), normal (3 components), texture
coordinate (2 components), with no other member before, between or
after them, and every field is of a numeric (float or int) base type. -/
theorem c2_demovertex_fields :
    (fieldsOf DemoVertex).map (fun f => (f.name, f.arity)) =
      [("pos", some 3), ("normal", some 3), ("uv", some 2)]
    ∧ DemoVertex.members.length = 3
    ∧ (fieldsOf DemoVertex).all
        (fun f => f.baseType == CType.float || f.baseType == CType.int) = true := by
  decide

/-- Claim C3: `Material` consists of exactly one field, of integer type,
and that field's single tag is an `mk::resource` tag whose parameters
are kind `uniform`, descriptor set `0`, binding `0`. -/
theorem c3_material_field :
    Material.members.length = 1
    ∧ (fieldsOf Material).map (fun f => (f.baseType, f.tags.map tagName)) =
        [(CType.int, ["mk::resource"])]
    ∧ (fieldsOf Material).all (fun f => f.tags.all fun t =>
        tagParam t "kind" == some "uniform"
        && tagParamNat t "set" == some 0
        && tagParamNat t "binding" == some 0) = true := by
  decide

/-- Claim C4: for every field of `DemoVertex` carrying an `mk::vertex`
tag, the component count stated by the tag's `format` parameter equals
the field's declared array arity; concretely the field at location 1
(`normal`) has format `vec3` and arity 3, and the field at location 2
(`uv`) has format `vec2` and arity 2. -/
theorem c4_format_matches_arity :
    (fieldsOf DemoVertex).all (fun f => f.tags.all fun t =>
        !(tagName t == "mk::vertex")
        || ((tagParam t "format").bind componentsOfFormat == f.arity)) = true
    ∧ (fieldsOf DemoVertex).map
        (fun f => ( (vertexTagOf f).bind fun t => tagParamNat t "location"
                  , (vertexTagOf f).bind fun t => tagParam t "format"
                  , f.arity )) =
      [ (none, none, some 3)
      , (some 1, some "vec3", some 3)
      , (some 2, some "vec2", some 2) ] := by
  decide

/-- Claim C5: the supplied material is an 11-line header file declaring
exactly two data structures, and each of the two aggregates carries
metadata tags (on the struct itself or on its fields), every one of
which is drawn from the set mk::struct, mk::vertex, mk::resource. -/
theorem c5_file_shape :
    demoHppLines.length = 11
    ∧ (structsOf demoHpp).map (fun s => s.name) = ["DemoVertex", "Material"]
    ∧ (structsOf demoHpp).all (fun s =>
        !(structTags s).isEmpty
        && (structTags s).all fun t =>
            ["mk::struct", "mk::vertex", "mk::resource"].contains (tagName t)) = true := by
  decide

/-- Claim C6: the header contains no executable logic: every top-level
item is either the include guard pragma or a struct declaration, and
every member of every struct is a plain data field — no function,
member function, constructor or operator is declared anywhere. -/
theorem c6_no_executable_logic :
    demoHpp.all (fun d =>
        match d with
        | .pragmaOnce => true
        | .structDef _ => true
        | .fnDef _ => false
        | .varDef _ _ => false) = true
    ∧ (structsOf demoHpp).all (fun s => s.members.all isDataField) = true := by
  decide

/-- Claim C7: the two aggregates are independent compile-time
declarations: neither struct has base classes, no field of either
struct has a struct-typed (named) base type — so neither names,
contains, inherits from or references the other — and no top-level
declaration constructs a runtime instance of either. -/
theorem c7_independent_declarations :
    (structsOf demoHpp).all (fun s => s.bases.isEmpty) = true
    ∧ (structsOf demoHpp).all (fun s =>
        (fieldsOf s).all fun f => namedRef f.baseType == none) = true
    ∧ demoHpp.all (fun d =>
        match d with
        | .varDef _ _ => false
        | _ => true) = true := by
  decide

/-- Claim C8: the `pos` field of `DemoVertex` carries no metadata tag at
all, and no field anywhere in the header declares a vertex-input
location 0 — the declared `mk::vertex` locations are exactly 1 and 2. -/
theorem c8_pos_untagged :
    fieldTagList DemoVertex "pos" = some []
    ∧ allVertexLocations demoHpp = [1, 2]
    ∧ (allVertexLocations demoHpp).contains 0 = false := by
  decide

/-- Claim C9: binding identifiers are collision-free: the `mk::vertex`
location values across all tagged fields are pairwise distinct (they
are exactly 1 and 2), and exactly one declaration claims an
`mk::resource` (set, binding) pair, namely (0, 0). -/
theorem c9_bindings_collision_free :
    (allVertexLocations demoHpp).Nodup
    ∧ allVertexLocations demoHpp = [1, 2]
    ∧ allResourceBindings demoHpp = [(0, 0)] := by
  decide

/-- Claim C10: every field of `DemoVertex` has element type `float`,
the aggregate totals exactly 8 float components (3 + 3 + 2), and
`Material`'s single field has type `int`. -/
theorem c10_concrete_types :
    (fieldsOf DemoVertex).all (fun f => f.baseType == CType.float) = true
    ∧ ((fieldsOf DemoVertex).map componentCount).sum = 8
    ∧ (fieldsOf Material).map (fun f => f.baseType) = [CType.int] := by
  decide

end DemoHpp
